import Mathlib

/-!
Verification of the blog JSON-LD structured-data generators:
`generateArticleSchema` (src/unnamed/part_000) and
`generateBreadcrumbSchema` (src/features/Blog/lib/generateBreadcrumbSchema.ts).

The TypeScript functions are shallowly embedded: optional (`?:`) fields become
`Option String`, template literals become string concatenation, the nullish
coalescing operator `??` becomes `Option.getD`, and the JavaScript truthiness
test `if (s)` on a `string | undefined` value becomes `jsTruthy` (falsy exactly
for `undefined` and the empty string).
-/

/-- A heading entry of a blog post, as used by the `BlogPost` record. -/
structure Heading where
  id : String
  text : String
  level : Nat
  deriving Repr, DecidableEq

/-- Modelled from the spec: the `BlogPost` type is imported from
`../types/blog`, a file not present in the sources; its fields are taken from
the spec data model ("title, description, slug, publishedAt (date string),
updatedAt (optional date string), author (name string), locale (tag string),
featuredImage (optional path or absolute URL string)") together with the
remaining fields visible in the property-test record (category, tags,
readingTime, difficulty, relatedPosts, content, headings). -/
structure BlogPost where
  title : String
  description : String
  slug : String
  publishedAt : String
  updatedAt : Option String
  author : String
  category : String
  tags : List String
  featuredImage : Option String
  readingTime : Nat
  difficulty : Option String
  relatedPosts : Option (List String)
  locale : String
  content : String
  headings : List Heading
  deriving Repr, DecidableEq

/-- JSON-LD author object with members @type and name. -/
structure AuthorSchema where
  atType : String
  name : String
  deriving Repr, DecidableEq

/-- JSON-LD logo object with members @type and url. -/
structure LogoSchema where
  atType : String
  url : String
  deriving Repr, DecidableEq

/-- JSON-LD publisher object with members @type, name and an optional logo. -/
structure PublisherSchema where
  atType : String
  name : String
  logo : Option LogoSchema
  deriving Repr, DecidableEq

/-- JSON-LD `Article` schema structure (interface `ArticleSchema`);
`atContext` and `atType` embed the @context and @type members. -/
structure ArticleSchema where
  atContext : String
  atType : String
  headline : String
  description : String
  datePublished : String
  dateModified : Option String
  author : AuthorSchema
  publisher : PublisherSchema
  mainEntityOfPage : String
  image : Option String
  deriving Repr, DecidableEq

/-- Configuration options for Article schema generation
(interface `ArticleSchemaOptions`); every member is optional. -/
structure ArticleSchemaOptions where
  baseUrl : Option String := none
  publisherName : Option String := none
  publisherLogo : Option String := none
  deriving Repr, DecidableEq

/-- Base URL for the site (`const BASE_URL`). -/
def BASE_URL : String := "https://kanadojo.com"

/-- `const PUBLISHER_NAME`. -/
def PUBLISHER_NAME : String := "KanaDojo"

/-- `const PUBLISHER_LOGO`. -/
def PUBLISHER_LOGO : String := "https://kanadojo.com/logo.png"

/-- JavaScript truthiness of a `string | undefined` value:
`undefined` and the empty string are falsy, every other string is truthy. -/
def jsTruthy : Option String → Bool
  | none => false
  | some s => s ≠ ""

/-- Embedding of `generateArticleSchema(post, options = {})`.
The two trailing `if` statements of the source, which add `dateModified` and
`image` to the already-built record, become functional record updates guarded
by the same truthiness tests. -/
def generateArticleSchema (post : BlogPost) (options : ArticleSchemaOptions) :
    ArticleSchema :=
  let baseUrl := options.baseUrl.getD BASE_URL
  let publisherName := options.publisherName.getD PUBLISHER_NAME
  let publisherLogo := options.publisherLogo.getD PUBLISHER_LOGO
  let mainEntityOfPage := baseUrl ++ "/" ++ post.locale ++ "/blog/" ++ post.slug
  let schema : ArticleSchema :=
    { atContext := "https://schema.org"
      atType := "Article"
      headline := post.title
      description := post.description
      datePublished := post.publishedAt
      dateModified := none
      author := { atType := "Person", name := post.author }
      publisher :=
        { atType := "Organization"
          name := publisherName
          logo := some { atType := "ImageObject", url := publisherLogo } }
      mainEntityOfPage := mainEntityOfPage
      image := none }
  let schema :=
    if jsTruthy post.updatedAt then
      { schema with dateModified := post.updatedAt }
    else schema
  let schema :=
    if jsTruthy post.featuredImage then
      { schema with
          image := post.featuredImage.map fun fi =>
            if fi.startsWith "http" then fi else baseUrl ++ fi }
    else schema
  schema

/-- JSON-LD `ListItem` structure for breadcrumbs
(interface `BreadcrumbListItem`). -/
structure BreadcrumbListItem where
  atType : String
  position : Nat
  name : String
  item : String
  deriving Repr, DecidableEq

/-- JSON-LD `BreadcrumbList` schema structure (interface `BreadcrumbSchema`). -/
structure BreadcrumbSchema where
  atContext : String
  atType : String
  itemListElement : List BreadcrumbListItem
  deriving Repr, DecidableEq

/-- Configuration options for Breadcrumb schema generation
(interface `BreadcrumbSchemaOptions`); every member is optional. -/
structure BreadcrumbSchemaOptions where
  baseUrl : Option String := none
  homeLabel : Option String := none
  blogLabel : Option String := none
  deriving Repr, DecidableEq

/-- Embedding of `generateBreadcrumbSchema(post, options = {})`. -/
def generateBreadcrumbSchema (post : BlogPost)
    (options : BreadcrumbSchemaOptions) : BreadcrumbSchema :=
  let baseUrl := options.baseUrl.getD BASE_URL
  let homeLabel := options.homeLabel.getD "Home"
  let blogLabel := options.blogLabel.getD "Blog"
  { atContext := "https://schema.org"
    atType := "BreadcrumbList"
    itemListElement :=
      [ { atType := "ListItem"
          position := 1
          name := homeLabel
          item := baseUrl ++ "/" ++ post.locale }
        , { atType := "ListItem"
            position := 2
            name := blogLabel
            item := baseUrl ++ "/" ++ post.locale ++ "/blog" }
        , { atType := "ListItem"
            position := 3
            name := post.title
            item := baseUrl ++ "/" ++ post.locale ++ "/blog/" ++ post.slug } ] }

/-- Call of `generateArticleSchema` seen as a transformer of the callers
`post` binding: the source body contains no assignment to `post` or to any of
its fields, so the call returns the input record unchanged alongside the
schema. -/
def generateArticleSchemaCall (post : BlogPost) (options : ArticleSchemaOptions) :
    ArticleSchema × BlogPost :=
  (generateArticleSchema post options, post)

/-- Call of `generateBreadcrumbSchema` seen as a transformer of the callers
`post` binding: the source body contains no assignment to `post` or to any of
its fields, so the call returns the input record unchanged alongside the
schema. -/
def generateBreadcrumbSchemaCall (post : BlogPost)
    (options : BreadcrumbSchemaOptions) : BreadcrumbSchema × BlogPost :=
  (generateBreadcrumbSchema post options, post)

/-- Closed form of `generateArticleSchema`: every field of the result as a
function of the post and the effective (defaulted) option values. -/
theorem generateArticleSchema_eq (post : BlogPost)
    (options : ArticleSchemaOptions) :
    generateArticleSchema post options =
      { atContext := "https://schema.org"
        atType := "Article"
        headline := post.title
        description := post.description
        datePublished := post.publishedAt
        dateModified := if jsTruthy post.updatedAt then post.updatedAt else none
        author := { atType := "Person", name := post.author }
        publisher :=
          { atType := "Organization"
            name := options.publisherName.getD PUBLISHER_NAME
            logo := some { atType := "ImageObject"
                           url := options.publisherLogo.getD PUBLISHER_LOGO } }
        mainEntityOfPage :=
          options.baseUrl.getD BASE_URL ++ "/" ++ post.locale ++ "/blog/" ++
            post.slug
        image :=
          if jsTruthy post.featuredImage then
            post.featuredImage.map fun fi =>
              if fi.startsWith "http" then fi
              else options.baseUrl.getD BASE_URL ++ fi
          else none } := by
  unfold generateArticleSchema
  cases h1 : jsTruthy post.updatedAt <;>
    cases h2 : jsTruthy post.featuredImage <;>
      simp [h1, h2]

/-- A concrete post whose `updatedAt` is the empty string: a present (defined)
value that JavaScript treats as falsy. -/
def postWithEmptyUpdatedAt : BlogPost :=
  { title := "t", description := "d", slug := "s", publishedAt := "2024-01-01"
    updatedAt := some "", author := "a", category := "grammar", tags := []
    featuredImage := none, readingTime := 1, difficulty := none
    relatedPosts := none, locale := "en", content := "c", headings := [] }

/-- Claim C1 counterexample: for a post whose `updatedAt` is the defined empty
string, `generateArticleSchema` omits `dateModified`, so "dateModified present
iff updatedAt is non-undefined" fails as stated. -/
theorem generateArticleSchema_dateModified_iff_defined_cex :
    ¬ (((generateArticleSchema postWithEmptyUpdatedAt {}).dateModified.isSome)
        ↔ postWithEmptyUpdatedAt.updatedAt.isSome) := by
  decide

/-- Claim C1 (amended): `dateModified` is present iff `post.updatedAt` is
present and non-empty (JavaScript-truthy); it then equals `post.updatedAt`,
and otherwise the field is absent (`none`), never a null-like value. -/
theorem generateArticleSchema_dateModified (post : BlogPost)
    (options : ArticleSchemaOptions) :
    (generateArticleSchema post options).dateModified =
      (if jsTruthy post.updatedAt then post.updatedAt else none) := by
  rw [generateArticleSchema_eq]

/-- A concrete post whose `featuredImage` is the empty string: a present
(defined) value that JavaScript treats as falsy. -/
def postWithEmptyFeaturedImage : BlogPost :=
  { title := "t", description := "d", slug := "s", publishedAt := "2024-01-01"
    updatedAt := none, author := "a", category := "grammar", tags := []
    featuredImage := some "", readingTime := 1, difficulty := none
    relatedPosts := none, locale := "en", content := "c", headings := [] }

/-- Claim C2 counterexample: for a post whose `featuredImage` is the defined
empty string, `generateArticleSchema` omits `image`, so "image present iff
featuredImage is non-undefined" fails as stated. -/
theorem generateArticleSchema_image_iff_defined_cex :
    ¬ (((generateArticleSchema postWithEmptyFeaturedImage {}).image.isSome)
        ↔ postWithEmptyFeaturedImage.featuredImage.isSome) := by
  decide

/-- Claim C2 (amended): `image` is present iff `post.featuredImage` is present
and non-empty (JavaScript-truthy); it then equals `post.featuredImage`
unmodified when that string starts with "http", and otherwise equals the
effective base URL concatenated with `post.featuredImage`. -/
theorem generateArticleSchema_image (post : BlogPost)
    (options : ArticleSchemaOptions) :
    (generateArticleSchema post options).image =
      (if jsTruthy post.featuredImage then
        post.featuredImage.map fun fi =>
          if fi.startsWith "http" then fi
          else options.baseUrl.getD BASE_URL ++ fi
      else none) := by
  rw [generateArticleSchema_eq]

/-- Claim C3: the unconditional fields of the Article schema come straight
from the post and the effective (defaulted) publisher name and logo. -/
theorem generateArticleSchema_required_fields (post : BlogPost)
    (options : ArticleSchemaOptions) :
    (generateArticleSchema post options).atContext = "https://schema.org" ∧
    (generateArticleSchema post options).atType = "Article" ∧
    (generateArticleSchema post options).headline = post.title ∧
    (generateArticleSchema post options).description = post.description ∧
    (generateArticleSchema post options).datePublished = post.publishedAt ∧
    (generateArticleSchema post options).author =
      { atType := "Person", name := post.author } ∧
    (generateArticleSchema post options).publisher =
      { atType := "Organization"
        name := options.publisherName.getD PUBLISHER_NAME
        logo := some { atType := "ImageObject"
                       url := options.publisherLogo.getD PUBLISHER_LOGO } } := by
  rw [generateArticleSchema_eq]
  exact ⟨rfl, rfl, rfl, rfl, rfl, rfl, rfl⟩

/-- The example post of the spec: title "Intro", slug "intro", locale "en";
the fields the spec leaves unspecified are filled with neutral values that
`mainEntityOfPage` does not depend on. -/
def specExamplePost : BlogPost :=
  { title := "Intro", description := "d", slug := "intro"
    publishedAt := "2024-01-01", updatedAt := none, author := "Jane"
    category := "grammar", tags := [], featuredImage := none, readingTime := 1
    difficulty := none, relatedPosts := none, locale := "en", content := "c"
    headings := [] }

/-- Claim C4: `mainEntityOfPage` is the effective base URL, a slash, the
locale, the segment /blog/ and the slug; at the example post with no
overrides it is the concrete URL of the spec. -/
theorem generateArticleSchema_mainEntityOfPage (post : BlogPost)
    (options : ArticleSchemaOptions) :
    (generateArticleSchema post options).mainEntityOfPage =
      options.baseUrl.getD BASE_URL ++ "/" ++ post.locale ++ "/blog/" ++
        post.slug ∧
    (generateArticleSchema specExamplePost {}).mainEntityOfPage =
      "https://kanadojo.com/en/blog/intro" := by
  rw [generateArticleSchema_eq]
  exact ⟨rfl, by decide⟩

/-- Claim C5: the breadcrumb list always has exactly the three ListItem
entries, positions 1, 2, 3 in order, with the effective home and blog labels
and the home, blog and post URLs. -/
theorem generateBreadcrumbSchema_itemListElement (post : BlogPost)
    (options : BreadcrumbSchemaOptions) :
    (generateBreadcrumbSchema post options).itemListElement =
      [ { atType := "ListItem"
          position := 1
          name := options.homeLabel.getD "Home"
          item := options.baseUrl.getD BASE_URL ++ "/" ++ post.locale }
        , { atType := "ListItem"
            position := 2
            name := options.blogLabel.getD "Blog"
            item := options.baseUrl.getD BASE_URL ++ "/" ++ post.locale ++
              "/blog" }
        , { atType := "ListItem"
            position := 3
            name := post.title
            item := options.baseUrl.getD BASE_URL ++ "/" ++ post.locale ++
              "/blog/" ++ post.slug } ] := rfl

/-- Claim C6: each override field defaults independently: for every options
value, a field left undefined makes the corresponding fixed constant appear in
the output (base URL https://kanadojo.com, publisher KanaDojo, logo
https://kanadojo.com/logo.png, labels Home and Blog), and a supplied field
makes the supplied value appear instead, regardless of the other fields. -/
theorem schema_options_defaulting (post : BlogPost)
    (oa : ArticleSchemaOptions) (ob : BreadcrumbSchemaOptions) :
    ((oa.baseUrl = none →
        (generateArticleSchema post oa).mainEntityOfPage =
          "https://kanadojo.com" ++ "/" ++ post.locale ++ "/blog/" ++
            post.slug) ∧
      (∀ b, oa.baseUrl = some b →
        (generateArticleSchema post oa).mainEntityOfPage =
          b ++ "/" ++ post.locale ++ "/blog/" ++ post.slug) ∧
      (oa.publisherName = none →
        (generateArticleSchema post oa).publisher.name = "KanaDojo") ∧
      (∀ n, oa.publisherName = some n →
        (generateArticleSchema post oa).publisher.name = n) ∧
      (oa.publisherLogo = none →
        (generateArticleSchema post oa).publisher.logo =
          some { atType := "ImageObject"
                 url := "https://kanadojo.com/logo.png" }) ∧
      (∀ l, oa.publisherLogo = some l →
        (generateArticleSchema post oa).publisher.logo =
          some { atType := "ImageObject", url := l })) ∧
    ((ob.baseUrl = none →
        ((generateBreadcrumbSchema post ob).itemListElement.map
            fun li => li.item) =
          [ "https://kanadojo.com" ++ "/" ++ post.locale
            , "https://kanadojo.com" ++ "/" ++ post.locale ++ "/blog"
            , "https://kanadojo.com" ++ "/" ++ post.locale ++ "/blog/" ++
                post.slug ]) ∧
      (∀ b, ob.baseUrl = some b →
        ((generateBreadcrumbSchema post ob).itemListElement.map
            fun li => li.item) =
          [ b ++ "/" ++ post.locale
            , b ++ "/" ++ post.locale ++ "/blog"
            , b ++ "/" ++ post.locale ++ "/blog/" ++ post.slug ]) ∧
      (ob.homeLabel = none →
        ((generateBreadcrumbSchema post ob).itemListElement.map
            fun li => li.name) =
          ["Home", ob.blogLabel.getD "Blog", post.title]) ∧
      (∀ h, ob.homeLabel = some h →
        ((generateBreadcrumbSchema post ob).itemListElement.map
            fun li => li.name) =
          [h, ob.blogLabel.getD "Blog", post.title]) ∧
      (ob.blogLabel = none →
        ((generateBreadcrumbSchema post ob).itemListElement.map
            fun li => li.name) =
          [ob.homeLabel.getD "Home", "Blog", post.title]) ∧
      (∀ g, ob.blogLabel = some g →
        ((generateBreadcrumbSchema post ob).itemListElement.map
            fun li => li.name) =
          [ob.homeLabel.getD "Home", g, post.title])) := by
  refine ⟨⟨?_, ?_, ?_, ?_, ?_, ?_⟩, ?_, ?_, ?_, ?_, ?_, ?_⟩ <;> intros <;>
    simp_all [generateArticleSchema_eq, generateBreadcrumbSchema, BASE_URL,
      PUBLISHER_NAME, PUBLISHER_LOGO]

/-- A mixed article-options value: baseUrl and publisherLogo supplied,
publisherName left undefined. -/
def mixedArticleOptions : ArticleSchemaOptions :=
  { baseUrl := some "https://example.org", publisherName := none
    publisherLogo := some "https://example.org/logo2.png" }

/-- A mixed breadcrumb-options value: homeLabel supplied, baseUrl and
blogLabel left undefined. -/
def mixedBreadcrumbOptions : BreadcrumbSchemaOptions :=
  { baseUrl := none, homeLabel := some "Inicio", blogLabel := none }

/-- Witness for C6 at a mixed configuration: supplied fields (article baseUrl
and logo, breadcrumb homeLabel) take the supplied values while the undefined
fields (publisherName, breadcrumb baseUrl and blogLabel) take the constants,
in the same call. -/
theorem schema_options_defaulting_witness :
    mixedArticleOptions.baseUrl = some "https://example.org" ∧
    mixedArticleOptions.publisherName = none ∧
    mixedArticleOptions.publisherLogo = some "https://example.org/logo2.png" ∧
    mixedBreadcrumbOptions.baseUrl = none ∧
    mixedBreadcrumbOptions.homeLabel = some "Inicio" ∧
    mixedBreadcrumbOptions.blogLabel = none ∧
    (generateArticleSchema specExamplePost mixedArticleOptions).mainEntityOfPage =
      "https://example.org/en/blog/intro" ∧
    (generateArticleSchema specExamplePost mixedArticleOptions).publisher.name =
      "KanaDojo" ∧
    (generateArticleSchema specExamplePost mixedArticleOptions).publisher.logo =
      some { atType := "ImageObject", url := "https://example.org/logo2.png" } ∧
    ((generateBreadcrumbSchema specExamplePost
        mixedBreadcrumbOptions).itemListElement.map fun li => li.name) =
      ["Inicio", "Blog", "Intro"] ∧
    ((generateBreadcrumbSchema specExamplePost
        mixedBreadcrumbOptions).itemListElement.map fun li => li.item) =
      [ "https://kanadojo.com/en", "https://kanadojo.com/en/blog"
        , "https://kanadojo.com/en/blog/intro" ] := by
  obtain ⟨⟨a1, a2, a3, a4, a5, a6⟩, b1, b2, b3, b4, b5, b6⟩ :=
    schema_options_defaulting specExamplePost mixedArticleOptions
      mixedBreadcrumbOptions
  refine ⟨rfl, rfl, rfl, rfl, rfl, rfl, ?_, a3 rfl,
    a6 "https://example.org/logo2.png" rfl, ?_, ?_⟩
  · rw [a2 "https://example.org" rfl]; decide
  · rw [b4 "Inicio" rfl]; decide
  · rw [b1 rfl]; decide

/-- Claim C7: both generators are deterministic, side-effect-free functions of
the input pair: structurally equal inputs give structurally equal outputs
(purity itself is by the embedding as total Lean functions, which mirrors the
absence of any I/O or mutation in the source bodies). -/
theorem schema_generators_deterministic (p q : BlogPost)
    (oa oa2 : ArticleSchemaOptions) (ob ob2 : BreadcrumbSchemaOptions)
    (hp : p = q) (ha : oa = oa2) (hb : ob = ob2) :
    generateArticleSchema p oa = generateArticleSchema q oa2 ∧
    generateBreadcrumbSchema p ob = generateBreadcrumbSchema q ob2 := by
  subst hp; subst ha; subst hb
  exact ⟨rfl, rfl⟩

/-- Witness for C7 at the concrete example post with default options. -/
theorem schema_generators_deterministic_witness :
    generateArticleSchema specExamplePost {} =
      generateArticleSchema specExamplePost {} ∧
    generateBreadcrumbSchema specExamplePost {} =
      generateBreadcrumbSchema specExamplePost {} :=
  schema_generators_deterministic specExamplePost specExamplePost {} {} {} {}
    rfl rfl rfl

/-- Claim C8: neither generator mutates the input post: the call, embedded as
a transformer of the callers post binding, leaves every field of the post
unchanged (the whole record is returned as it came in). -/
theorem schema_generators_no_mutation (post : BlogPost)
    (oa : ArticleSchemaOptions) (ob : BreadcrumbSchemaOptions) :
    (generateArticleSchemaCall post oa).2 = post ∧
    (generateBreadcrumbSchemaCall post ob).2 = post :=
  ⟨rfl, rfl⟩

/-- Claim C9: although `logo` is optional in the output type, the publisher
returned by `generateArticleSchema` always carries a logo equal to the
ImageObject with the effective publisher-logo URL; it is never absent. -/
theorem generateArticleSchema_logo_always_present (post : BlogPost)
    (options : ArticleSchemaOptions) :
    (generateArticleSchema post options).publisher.logo =
      some { atType := "ImageObject"
             url := options.publisherLogo.getD PUBLISHER_LOGO } := by
  rw [generateArticleSchema_eq]

/-- Claim C10: the breadcrumb output depends only on the locale, slug and
title of the post: two posts agreeing on those three fields give structurally
equal BreadcrumbSchema values for any one options value. -/
theorem generateBreadcrumbSchema_depends_only_on_locale_slug_title
    (p q : BlogPost) (options : BreadcrumbSchemaOptions)
    (hl : p.locale = q.locale) (hs : p.slug = q.slug)
    (ht : p.title = q.title) :
    generateBreadcrumbSchema p options = generateBreadcrumbSchema q options := by
  simp [generateBreadcrumbSchema, hl, hs, ht]

/-- First of two concrete posts agreeing only on locale, slug and title. -/
def breadcrumbSecretA : BlogPost :=
  { title := "Intro", description := "first", slug := "intro"
    publishedAt := "2024-01-01", updatedAt := some "2024-02-02"
    author := "Jane", category := "grammar", tags := ["a"]
    featuredImage := some "/blog/image1.jpg", readingTime := 3
    difficulty := some "beginner", relatedPosts := some ["other"]
    locale := "en", content := "body one", headings := [] }

/-- Second of two concrete posts agreeing only on locale, slug and title. -/
def breadcrumbSecretB : BlogPost :=
  { title := "Intro", description := "second", slug := "intro"
    publishedAt := "2025-12-31", updatedAt := none, author := "Ann"
    category := "vocabulary", tags := [], featuredImage := none
    readingTime := 60, difficulty := none, relatedPosts := none
    locale := "en", content := "body two"
    headings := [{ id := "h", text := "t", level := 2 }] }

/-- Witness for C10: the two concrete posts differ in every field other than
locale, slug and title, yet give the same breadcrumb schema. -/
theorem generateBreadcrumbSchema_depends_only_witness :
    generateBreadcrumbSchema breadcrumbSecretA {} =
      generateBreadcrumbSchema breadcrumbSecretB {} :=
  generateBreadcrumbSchema_depends_only_on_locale_slug_title
    breadcrumbSecretA breadcrumbSecretB {} rfl rfl rfl
